import Mathlib

/-
  Verification development for the message-ingestion handlers of the
  FileStream bot (src/FileStream/bot/plugins/stream.py).

  The handlers are shallowly embedded as pure functions from an
  environment (the results the external collaborators would return:
  authorization predicates, the registry insert, handle resolution,
  link generation, the platform send calls) to a trace of emitted
  effects together with a final outcome.  Every await point of the
  Python source is mirrored by one effect in the trace, in source
  order, so ordering and absence claims become statements about the
  trace lists.
-/

namespace FileStreamSpec

/-- Exceptions that an outbound platform call can raise inside the
try-blocks of the handlers: a pyrogram FloodWait carrying the mandated
wait in seconds, or any other exception (the generic except branch). -/
inductive Exn
  | floodWait (t : Nat)
  | other
deriving DecidableEq

/-- Chat-member status as used by check_admin_privileges
(pyrogram enums.ChatMemberStatus; only the constructors the code
compares against matter, the rest collapse into the remaining ones). -/
inductive ChatMemberStatus
  | owner
  | administrator
  | member
  | restricted
  | left
  | banned
deriving DecidableEq

/-- One observable effect of a handler run, in source order:
the awaited precondition checks, the four calls of the ingestion
try-block (db.add_file, get_file_ids, gen_link, and the reply_text /
edit_message_reply_markup response), the FloodWait sleep, the
send_message notifications to the ULOG channel, the explanatory
replies of the /link command, and the batched get_messages fetch. -/
inductive Eff
  | checkAuthorized
  | checkBanned
  | userExistCheck
  | checkJoined
  | checkChannelBanned
  | channelExistCheck
  | checkAdmin
  | insertAttempt
  | insertOk (id : Nat)
  | fileIdsAttempt (id : Nat)
  | genLinkAttempt (id : Nat)
  | respondAttempt
  | sleep (t : Nat)
  | logNotify
  | replyAdminNeeded
  | replyNoReplyTarget
  | replyNoMedia
  | replyValidation
  | replyFetchFailed
  | replySummary (n : Nat)
  | fetchMessages (ids : List Nat)
deriving DecidableEq

/-- Final outcome of a handler run. -/
inductive Outcome
  | deniedUnauthorized
  | deniedBanned
  | deniedNotJoined
  | deniedChannelBanned
  | deniedNotAdmin
  | noReplyTarget
  | replyNotMedia
  | invalidCount
  | batchFetchFailed
  | batchDone (n : Nat)
  | completed
  | failed
deriving DecidableEq

instance exceptDecEq {α β : Type} [DecidableEq α] [DecidableEq β] :
    DecidableEq (Except α β) := fun x y =>
  match x, y with
  | .error a, .error b =>
    if h : a = b then isTrue (by rw [h])
    else isFalse (by intro hc; cases hc; exact h rfl)
  | .error _, .ok _ => isFalse (by intro hc; cases hc)
  | .ok _, .error _ => isFalse (by intro hc; cases hc)
  | .ok a, .ok b =>
    if h : a = b then isTrue (by rw [h])
    else isFalse (by intro hc; cases hc; exact h rfl)

/-- Environment of one ingestion try-block: the result each of the four
sequential awaited calls would have (db.add_file returning the inserted
id, get_file_ids, gen_link, and the final response send). -/
structure ProcEnv where
  insertRes : Except Exn Nat
  fileIdsRes : Except Exn Unit
  genLinkRes : Except Exn Unit
  respondRes : Except Exn Unit
deriving DecidableEq

/-- Effects of the except-branches of the try-blocks: a FloodWait is
handled by sleeping e.value and then sending a notification to the
ULOG channel; any other exception is logged and notified. -/
def exnEffects : Exn → List Eff
  | .floodWait t => [.sleep t, .logNotify]
  | .other => [.logNotify]

/-- The shared ingestion try-block (lines 63-95, 123-154, 244-276 and
303-335 of stream.py): insert via db.add_file, resolve handles via
get_file_ids with the inserted id, build the link via gen_link with the
inserted id, then respond (reply_text, or edit_message_reply_markup in
the channel handler).  Execution is sequential and stops at the first
call that raises; the except branch then runs.  Returns the trace and
whether the whole block succeeded. -/
def processFile (env : ProcEnv) : List Eff × Bool :=
  match env.insertRes with
  | .error e => ([.insertAttempt] ++ exnEffects e, false)
  | .ok id =>
    match env.fileIdsRes with
    | .error e =>
      ([.insertAttempt, .insertOk id, .fileIdsAttempt id] ++ exnEffects e, false)
    | .ok _ =>
      match env.genLinkRes with
      | .error e =>
        ([.insertAttempt, .insertOk id, .fileIdsAttempt id, .genLinkAttempt id]
           ++ exnEffects e, false)
      | .ok _ =>
        match env.respondRes with
        | .error e =>
          ([.insertAttempt, .insertOk id, .fileIdsAttempt id, .genLinkAttempt id,
             .respondAttempt] ++ exnEffects e, false)
        | .ok _ =>
          ([.insertAttempt, .insertOk id, .fileIdsAttempt id, .genLinkAttempt id,
             .respondAttempt], true)

/-- Environment of private_receive_handler: the answers of the awaited
precondition predicates, the FORCE_SUB configuration flag, and the
ingestion environment. -/
structure PrivateEnv where
  authorized : Bool
  banned : Bool
  forceSub : Bool
  joined : Bool
  proc : ProcEnv
deriving DecidableEq

/-- private_receive_handler (stream.py lines 42-95): authorization
check, ban check, user-existence registration, force-subscription
check (only when FORCE_SUB is configured), then the ingestion
try-block. -/
def private_receive_handler (env : PrivateEnv) : List Eff × Outcome :=
  if !env.authorized then
    ([.checkAuthorized], .deniedUnauthorized)
  else if env.banned then
    ([.checkAuthorized, .checkBanned], .deniedBanned)
  else if env.forceSub then
    if !env.joined then
      ([.checkAuthorized, .checkBanned, .userExistCheck, .checkJoined],
       .deniedNotJoined)
    else
      ([.checkAuthorized, .checkBanned, .userExistCheck, .checkJoined]
         ++ (processFile env.proc).1,
       if (processFile env.proc).2 then .completed else .failed)
  else
    ([.checkAuthorized, .checkBanned, .userExistCheck] ++ (processFile env.proc).1,
     if (processFile env.proc).2 then .completed else .failed)

/-- Environment of channel_receive_handler. -/
structure ChannelEnv where
  channelBanned : Bool
  proc : ProcEnv
deriving DecidableEq

/-- channel_receive_handler (stream.py lines 113-154): channel ban
check, channel-existence registration, then the ingestion try-block
(whose response step is edit_message_reply_markup). -/
def channel_receive_handler (env : ChannelEnv) : List Eff × Outcome :=
  if env.channelBanned then
    ([.checkChannelBanned], .deniedChannelBanned)
  else
    ([.checkChannelBanned, .channelExistCheck] ++ (processFile env.proc).1,
     if (processFile env.proc).2 then .completed else .failed)

/-- The replied-to message of a /link invocation: its message id and
whether it carries media. -/
structure ReplyInfo where
  msgId : Nat
  hasMedia : Bool
deriving DecidableEq

/-- The optional count argument of /link: absent, present but not an
integer (int() raises ValueError), or an integer value. -/
inductive CountArg
  | absent
  | notInt
  | given (n : Int)
deriving DecidableEq

/-- One element of the list returned by the batched get_messages call:
whether the message is present (not None), whether it carries media,
and the ingestion environment used if it is processed. -/
structure BatchItem where
  present : Bool
  hasMedia : Bool
  proc : ProcEnv
deriving DecidableEq

/-- check_admin_privileges (stream.py lines 343-357): fetch the bot's
chat-member record; return whether its status is ADMINISTRATOR or
OWNER; any exception during the fetch yields False instead of
propagating. -/
def check_admin_privileges (memberRes : Except Unit ChatMemberStatus) : Bool :=
  match memberRes with
  | .ok s => [ChatMemberStatus.administrator, ChatMemberStatus.owner].contains s
  | .error _ => false

/-- The per-item loop body of process_multiple_files (lines 301-335):
items that are absent or non-media are skipped with no effects;
otherwise the ingestion try-block runs and counts 1 on success. -/
def processItems : List BatchItem → List Eff × Nat
  | [] => ([], 0)
  | it :: rest =>
    let head : List Eff × Bool :=
      if it.present && it.hasMedia then processFile it.proc else ([], false)
    (head.1 ++ (processItems rest).1,
     (if head.2 then 1 else 0) + (processItems rest).2)

/-- process_multiple_files (stream.py lines 279-340): compute the
contiguous id range starting at the replied-to message, fetch it with
one get_messages call; an RPCError on the fetch is reported with a
single error reply and aborts the batch; otherwise each item is
processed independently and a summary with the success count is always
sent at the end. -/
def process_multiple_files (startId : Nat) (numFiles : Nat)
    (fetchRes : Except Unit (List BatchItem)) : List Eff × Outcome :=
  match fetchRes with
  | .error _ =>
    ([.fetchMessages (List.range' startId numFiles), .replyFetchFailed],
     .batchFetchFailed)
  | .ok items =>
    (Eff.fetchMessages (List.range' startId numFiles)
       :: ((processItems items).1 ++ [.replySummary (processItems items).2]),
     .batchDone (processItems items).2)

/-- Environment of link_handler. -/
structure LinkEnv where
  authorized : Bool
  banned : Bool
  forceSub : Bool
  joined : Bool
  isGroupChat : Bool
  adminFetch : Except Unit ChatMemberStatus
  replyMsg : Option ReplyInfo
  countArg : CountArg
  singleProc : ProcEnv
  fetchRes : Except Unit (List BatchItem)
deriving DecidableEq

/-- link_handler (stream.py lines 160-237): authorization, ban,
user-existence registration, force-subscription, group-admin check
(only in group/supergroup chats, with an explanatory reply on
failure), reply-target checks (explanatory replies), count-argument
validation (range [1,25], explanatory reply, no clamping), then the
single-file or multiple-files path. -/
def link_handler (env : LinkEnv) : List Eff × Outcome :=
  if !env.authorized then
    ([.checkAuthorized], .deniedUnauthorized)
  else if env.banned then
    ([.checkAuthorized, .checkBanned], .deniedBanned)
  else if env.forceSub && !env.joined then
    ([.checkAuthorized, .checkBanned, .userExistCheck, .checkJoined],
     .deniedNotJoined)
  else
    let pre : List Eff := [.checkAuthorized, .checkBanned, .userExistCheck]
      ++ (if env.forceSub then [.checkJoined] else [])
    if env.isGroupChat && !check_admin_privileges env.adminFetch then
      (pre ++ [.checkAdmin, .replyAdminNeeded], .deniedNotAdmin)
    else
      let pre2 : List Eff := pre ++ (if env.isGroupChat then [.checkAdmin] else [])
      match env.replyMsg with
      | none => (pre2 ++ [.replyNoReplyTarget], .noReplyTarget)
      | some r =>
        if !r.hasMedia then
          (pre2 ++ [.replyNoMedia], .replyNotMedia)
        else
          match env.countArg with
          | .notInt => (pre2 ++ [.replyValidation], .invalidCount)
          | .absent =>
            (pre2 ++ (processFile env.singleProc).1,
             if (processFile env.singleProc).2 then .completed else .failed)
          | .given n =>
            if n < 1 ∨ 25 < n then
              (pre2 ++ [.replyValidation], .invalidCount)
            else if n = 1 then
              (pre2 ++ (processFile env.singleProc).1,
               if (processFile env.singleProc).2 then .completed else .failed)
            else
              let res := process_multiple_files r.msgId n.toNat env.fetchRes
              (pre2 ++ res.1, res.2)

/-- Effects that constitute fetching or ingestion work: the batched
message fetch, the registry insert, handle resolution and link
generation. -/
def isIngestEff : Eff → Bool
  | .fetchMessages _ => true
  | .insertAttempt => true
  | .insertOk _ => true
  | .fileIdsAttempt _ => true
  | .genLinkAttempt _ => true
  | _ => false

/-- Effects that are messages sent to the requester (replies in the
originating chat), as opposed to log-channel notifications or internal
work. -/
def isReplyEff : Eff → Bool
  | .respondAttempt => true
  | .replyAdminNeeded => true
  | .replyNoReplyTarget => true
  | .replyNoMedia => true
  | .replyValidation => true
  | .replyFetchFailed => true
  | .replySummary _ => true
  | _ => false

/-- The four outbound calls of the ingestion try-block. -/
inductive CallName
  | insert
  | fileIds
  | genLink
  | respond
deriving DecidableEq

/-- Whether an effect is an attempt of the given call. -/
def isAttemptOf : CallName → Eff → Bool
  | .insert, .insertAttempt => true
  | .fileIds, .fileIdsAttempt _ => true
  | .genLink, .genLinkAttempt _ => true
  | .respond, .respondAttempt => true
  | _, _ => false

/-- How many times a given call was attempted in a trace. -/
def attemptsOf (tr : List Eff) (c : CallName) : Nat :=
  (tr.filter (isAttemptOf c)).length

/-- Which call of the try-block raises, and with what exception
(the calls run in source order and stop at the first raise). -/
def raisedCall (env : ProcEnv) : Option (CallName × Exn) :=
  match env.insertRes with
  | .error e => some (.insert, e)
  | .ok _ =>
    match env.fileIdsRes with
    | .error e => some (.fileIds, e)
    | .ok _ =>
      match env.genLinkRes with
      | .error e => some (.genLink, e)
      | .ok _ =>
        match env.respondRes with
        | .error e => some (.respond, e)
        | .ok _ => none

/-- Scanner for the id-before-use discipline: walks a trace keeping
the list of ids already returned by a completed insert, and checks
that every handle resolution and link generation names one of them. -/
def idsOkAux (known : List Nat) : List Eff → Bool
  | [] => true
  | .insertOk i :: rest => idsOkAux (i :: known) rest
  | .fileIdsAttempt i :: rest => known.contains i && idsOkAux known rest
  | .genLinkAttempt i :: rest => known.contains i && idsOkAux known rest
  | _ :: rest => idsOkAux known rest

/-- A trace respects the id-before-use discipline when the scan from
the empty id list succeeds. -/
def idsOk (tr : List Eff) : Bool := idsOkAux [] tr

/-- The ids a trace adds to the known list. -/
def knownAfter (known : List Nat) : List Eff → List Nat
  | [] => known
  | .insertOk i :: rest => knownAfter (i :: known) rest
  | _ :: rest => knownAfter known rest

/-- A batch item that counts toward the final success count: present,
media-bearing, and its ingestion try-block ran to completion. -/
def itemSucceeds (it : BatchItem) : Bool :=
  it.present && it.hasMedia && (processFile it.proc).2

/-- Modelled from the spec: immutable metadata of a FileRecord
(spec section 3) -- source chat id, source message id, content hash,
mime/category, size.  get_file_info and the Database class are not in
this source excerpt. -/
structure FileInfo where
  chatId : Int
  messageId : Nat
  contentHash : String
  mime : String
  size : Nat
deriving DecidableEq

/-- Modelled from the spec: the File Registry backing db.add_file
(Database is not in this source excerpt).  Spec section 3: records are
append-only, the internal id is monotonically increasing and assigned
at insert, and never changes after assignment. -/
structure Registry where
  nextId : Nat
  records : List (Nat × FileInfo)
deriving DecidableEq

/-- Modelled from the spec: Registry.Insert assigns the next id to the
new record, appends it, and returns the assigned id. -/
def Registry.insert (r : Registry) (info : FileInfo) : Registry × Nat :=
  ({ nextId := r.nextId + 1, records := (r.nextId, info) :: r.records }, r.nextId)

/-- A sequence of successful ingestions against the registry: inserts
each event's metadata in order and collects the assigned ids. -/
def ingestAll (r : Registry) : List FileInfo → Registry × List Nat
  | [] => (r, [])
  | f :: fs =>
    let step := r.insert f
    let rest := ingestAll step.1 fs
    (rest.1, step.2 :: rest.2)

/- ------------------------------------------------------------------ -/
/- Helper lemmas                                                      -/
/- ------------------------------------------------------------------ -/

theorem idsOkAux_exnEffects (known : List Nat) (e : Exn) :
    idsOkAux known (exnEffects e) = true := by
  cases e <;> rfl

theorem processFile_idsOkAux (known : List Nat) (env : ProcEnv) :
    idsOkAux known (processFile env).1 = true := by
  obtain ⟨i, f, g, rp⟩ := env
  cases i with
  | error e => cases e <;> rfl
  | ok id =>
    cases f with
    | error e => cases e <;> simp [processFile, idsOkAux, exnEffects]
    | ok uf =>
      cases g with
      | error e => cases e <;> simp [processFile, idsOkAux, exnEffects]
      | ok ug =>
        cases rp with
        | error e => cases e <;> simp [processFile, idsOkAux, exnEffects]
        | ok ur => simp [processFile, idsOkAux]

theorem idsOkAux_append (known : List Nat) (xs ys : List Eff) :
    idsOkAux known (xs ++ ys)
      = (idsOkAux known xs && idsOkAux (knownAfter known xs) ys) := by
  induction xs generalizing known with
  | nil => simp [idsOkAux, knownAfter]
  | cons x xs ih =>
    cases x <;> simp [idsOkAux, knownAfter, ih, Bool.and_assoc]

theorem processItems_idsOkAux (known : List Nat) (items : List BatchItem) :
    idsOkAux known (processItems items).1 = true := by
  induction items generalizing known with
  | nil => rfl
  | cons it rest ih =>
    by_cases h : it.present && it.hasMedia
    · simp [processItems, h, idsOkAux_append, processFile_idsOkAux, ih]
    · simp [processItems, h, idsOkAux_append, idsOkAux, knownAfter, ih]

theorem processItems_count (items : List BatchItem) :
    (processItems items).2 = (items.filter itemSucceeds).length := by
  induction items with
  | nil => rfl
  | cons it rest ih =>
    cases hp : it.present <;> cases hm : it.hasMedia <;>
      cases hs : (processFile it.proc).2 <;>
        (simp [processItems, itemSucceeds, List.filter_cons, hp, hm, hs, ih];
          try omega)

theorem ingestAll_ids (r : Registry) (infos : List FileInfo) :
    (ingestAll r infos).2 = List.range' r.nextId infos.length := by
  induction infos generalizing r with
  | nil => rfl
  | cons f fs ih =>
    simp [ingestAll, Registry.insert, ih, List.range'_succ]

theorem ingestAll_preserves (r : Registry) (infos : List FileInfo)
    (p : Nat × FileInfo) (hp : p ∈ r.records) :
    p ∈ (ingestAll r infos).1.records := by
  induction infos generalizing r with
  | nil => exact hp
  | cons f fs ih =>
    show p ∈ (ingestAll (r.insert f).1 fs).1.records
    exact ih (r.insert f).1 (List.mem_cons_of_mem _ hp)

/- ------------------------------------------------------------------ -/
/- Claims                                                             -/
/- ------------------------------------------------------------------ -/

/-- C9: check_admin_privileges is total over platform failures: a
failed chat-member fetch yields False instead of propagating, and the
result is True exactly when the fetched status is ADMINISTRATOR or
OWNER. -/
theorem C9_check_admin_privileges_total
    (memberRes : Except Unit ChatMemberStatus) :
    (∀ u : Unit, check_admin_privileges (Except.error u) = false) ∧
    (check_admin_privileges memberRes = true ↔
      memberRes = Except.ok ChatMemberStatus.administrator ∨
      memberRes = Except.ok ChatMemberStatus.owner) := by
  refine ⟨fun u => rfl, ?_⟩
  cases memberRes with
  | error u => cases u; decide
  | ok s => cases s <;> decide

/-- Witness for C9 at concrete inputs. -/
theorem C9_check_admin_privileges_total_witness :
    check_admin_privileges (Except.ok ChatMemberStatus.administrator) = true ∧
    check_admin_privileges (Except.error ()) = false :=
  ⟨(C9_check_admin_privileges_total
      (Except.ok ChatMemberStatus.administrator)).2.mpr (Or.inl rfl),
   (C9_check_admin_privileges_total
      (Except.ok ChatMemberStatus.administrator)).1 ()⟩

/-- C5: a failure of the whole-range fetch aborts the batch with
exactly one fetch attempt and one error reply: no registry insert, no
handle resolution, no link generation, no per-item processing. -/
theorem C5_batch_fetch_failure_aborts (startId numFiles : Nat) (u : Unit) :
    process_multiple_files startId numFiles (Except.error u) =
      ([Eff.fetchMessages (List.range' startId numFiles), Eff.replyFetchFailed],
       Outcome.batchFetchFailed) := rfl

/-- C3: for any batch of fetched items, the final success count equals
exactly the number of items that were present, media-bearing and fully
processed without error (skipped and failed items are passed over
without aborting), and the trace always ends with the count-of-
successes summary reply. -/
theorem C3_batch_partial_failure_count (startId numFiles : Nat)
    (items : List BatchItem) :
    (process_multiple_files startId numFiles (Except.ok items)).2 =
      Outcome.batchDone ((items.filter itemSucceeds).length) ∧
    (process_multiple_files startId numFiles (Except.ok items)).1.getLast? =
      some (Eff.replySummary ((items.filter itemSucceeds).length)) := by
  constructor
  · simp [process_multiple_files, processItems_count]
  · show (Eff.fetchMessages (List.range' startId numFiles)
        :: ((processItems items).1
          ++ [Eff.replySummary (processItems items).2])).getLast? = _
    rw [← List.cons_append, List.getLast?_concat, processItems_count]

/-- C8: ids assigned by successive registry inserts are strictly
increasing (each returned id exceeds every earlier one), and records
already present are preserved unchanged by later inserts (an id never
changes after assignment). -/
theorem C8_monotonic_ids (r : Registry) (infos : List FileInfo) :
    List.Pairwise (· < ·) (ingestAll r infos).2 ∧
    (∀ p : Nat × FileInfo, p ∈ r.records → p ∈ (ingestAll r infos).1.records) := by
  constructor
  · rw [ingestAll_ids]
    exact List.pairwise_lt_range' _ _
  · exact fun p hp => ingestAll_preserves r infos p hp

/-- Concrete registry contents used by the C8 witness. -/
def fileInfoA : FileInfo := ⟨0, 100, "h0", "video", 10⟩

/-- Second concrete file metadata used by the C8 witness. -/
def fileInfoB : FileInfo := ⟨0, 101, "h1", "video", 20⟩

/-- Concrete registry used by the C8 witness. -/
def registryW : Registry := ⟨1, [(0, fileInfoA)]⟩

/-- Witness for C8 at a concrete registry and insert sequence. -/
theorem C8_monotonic_ids_witness :
    (0, fileInfoA) ∈ registryW.records ∧
    (List.Pairwise (· < ·) (ingestAll registryW [fileInfoB]).2 ∧
     (0, fileInfoA) ∈ (ingestAll registryW [fileInfoB]).1.records) :=
  ⟨by decide,
   ⟨(C8_monotonic_ids registryW [fileInfoB]).1,
    (C8_monotonic_ids registryW [fileInfoB]).2 (0, fileInfoA) (by decide)⟩⟩

theorem pmf_idsOkAux (known : List Nat) (startId numFiles : Nat)
    (fetchRes : Except Unit (List BatchItem)) :
    idsOkAux known (process_multiple_files startId numFiles fetchRes).1 = true := by
  cases fetchRes with
  | error u => rfl
  | ok items =>
    simp [process_multiple_files, idsOkAux, idsOkAux_append, processItems_idsOkAux]

/-- C6: in every ingestion trace (private handler, channel handler,
the single-file path of /link, and every batch item inside
process_multiple_files), the registry insert completes and returns its
id before any handle resolution or link generation is attempted, and
both later steps are invoked with an id that an earlier completed
insert assigned. -/
theorem C6_insert_before_resolution (envP : PrivateEnv) (envC : ChannelEnv)
    (envS : ProcEnv) (startId numFiles : Nat)
    (fetchRes : Except Unit (List BatchItem)) (envL : LinkEnv) :
    idsOk (private_receive_handler envP).1 = true ∧
    idsOk (channel_receive_handler envC).1 = true ∧
    idsOk (processFile envS).1 = true ∧
    idsOk (process_multiple_files startId numFiles fetchRes).1 = true ∧
    idsOk (link_handler envL).1 = true := by
  refine ⟨?_, ?_, processFile_idsOkAux [] envS,
    pmf_idsOkAux [] startId numFiles fetchRes, ?_⟩
  · cases ha : envP.authorized <;> cases hb : envP.banned <;>
      cases hf : envP.forceSub <;> cases hj : envP.joined <;>
        simp [private_receive_handler, idsOk, ha, hb, hf, hj, idsOkAux,
          processFile_idsOkAux]
  · cases hcb : envC.channelBanned <;>
      simp [channel_receive_handler, idsOk, hcb, idsOkAux, processFile_idsOkAux]
  · cases ha : envL.authorized <;> cases hb : envL.banned <;>
      cases hf : envL.forceSub <;> cases hj : envL.joined <;>
        cases hg : envL.isGroupChat <;>
          cases hadm : check_admin_privileges envL.adminFetch <;>
            rcases hr : envL.replyMsg with _ | ⟨mid, media⟩ <;>
              (try cases media) <;>
                rcases hcnt : envL.countArg with _ | _ | n <;>
                  simp [link_handler, idsOk, ha, hb, hf, hj, hg, hadm, hr, hcnt,
                    idsOkAux, idsOkAux_append, knownAfter, processFile_idsOkAux,
                    pmf_idsOkAux]
    all_goals repeat' split
    all_goals
      simp [idsOkAux, idsOkAux_append, knownAfter, processFile_idsOkAux,
        pmf_idsOkAux]

/-- Concrete ingestion environment whose registry insert raises a
FloodWait of 5 seconds; the remaining calls would have succeeded. -/
def envC2 : ProcEnv :=
  ⟨Except.error (Exn.floodWait 5), Except.ok (), Except.ok (), Except.ok ()⟩

/-- The retry-once behaviour the spec claims for throttle signals,
stated at one ingestion environment: if some call of the try-block
raises FloodWait with wait t, that call is attempted twice in total
(retried exactly once after the sleep). -/
def retriesOnceAt (env : ProcEnv) : Prop :=
  ∀ c t, raisedCall env = some (c, Exn.floodWait t) →
    attemptsOf (processFile env).1 c = 2

/-- C2 counterexample: with the insert raising FloodWait 5, the
handler sleeps 5 but attempts the insert only once in total -- the
throttled call is never reissued, refuting the claimed retry-once
behaviour. -/
theorem C2_counterexample :
    raisedCall envC2 = some (CallName.insert, Exn.floodWait 5) ∧
    Eff.sleep 5 ∈ (processFile envC2).1 ∧
    attemptsOf (processFile envC2).1 CallName.insert = 1 ∧
    ¬ retriesOnceAt envC2 :=
  ⟨rfl, by decide, by decide,
   fun h => absurd (h CallName.insert 5 rfl) (by decide)⟩

/-- C2 amended: when a call of the ingestion try-block raises a
FloodWait with wait t, the handler sleeps t and then sends a single
log-channel notification; the throttled call is attempted exactly
once, no call is attempted more than once, the ingestion reports
failure, and the trace ends with the sleep followed by the
notification (nothing is retried after the throttle). -/
theorem C2_amended_no_retry (env : ProcEnv) (c : CallName) (t : Nat)
    (h : raisedCall env = some (c, Exn.floodWait t)) :
    (processFile env).2 = false ∧
    attemptsOf (processFile env).1 c = 1 ∧
    (∀ c2 : CallName, attemptsOf (processFile env).1 c2 ≤ 1) ∧
    (∃ pre : List Eff,
      (processFile env).1 = pre ++ [Eff.sleep t, Eff.logNotify]) := by
  obtain ⟨i, f, g, rp⟩ := env
  cases i with
  | error e =>
    cases e with
    | floodWait tw =>
      simp [raisedCall] at h
      obtain ⟨hc, ht⟩ := h
      subst hc
      subst ht
      refine ⟨rfl, by simp [processFile, attemptsOf, isAttemptOf, exnEffects],
        ?_, ⟨[Eff.insertAttempt], rfl⟩⟩
      intro c2
      cases c2 <;> simp [processFile, attemptsOf, isAttemptOf, exnEffects]
    | other => simp [raisedCall] at h
  | ok id =>
    cases f with
    | error e =>
      cases e with
      | floodWait tw =>
        simp [raisedCall] at h
        obtain ⟨hc, ht⟩ := h
        subst hc
        subst ht
        refine ⟨rfl, by simp [processFile, attemptsOf, isAttemptOf, exnEffects],
          ?_, ⟨[Eff.insertAttempt, Eff.insertOk id, Eff.fileIdsAttempt id], rfl⟩⟩
        intro c2
        cases c2 <;> simp [processFile, attemptsOf, isAttemptOf, exnEffects]
      | other => simp [raisedCall] at h
    | ok uf =>
      cases g with
      | error e =>
        cases e with
        | floodWait tw =>
          simp [raisedCall] at h
          obtain ⟨hc, ht⟩ := h
          subst hc
          subst ht
          refine ⟨rfl, by simp [processFile, attemptsOf, isAttemptOf, exnEffects],
            ?_, ⟨[Eff.insertAttempt, Eff.insertOk id, Eff.fileIdsAttempt id,
              Eff.genLinkAttempt id], rfl⟩⟩
          intro c2
          cases c2 <;> simp [processFile, attemptsOf, isAttemptOf, exnEffects]
        | other => simp [raisedCall] at h
      | ok ug =>
        cases rp with
        | error e =>
          cases e with
          | floodWait tw =>
            simp [raisedCall] at h
            obtain ⟨hc, ht⟩ := h
            subst hc
            subst ht
            refine ⟨rfl, by simp [processFile, attemptsOf, isAttemptOf, exnEffects],
              ?_, ⟨[Eff.insertAttempt, Eff.insertOk id, Eff.fileIdsAttempt id,
                Eff.genLinkAttempt id, Eff.respondAttempt], rfl⟩⟩
            intro c2
            cases c2 <;> simp [processFile, attemptsOf, isAttemptOf, exnEffects]
          | other => simp [raisedCall] at h
        | ok ur => simp [raisedCall] at h

/-- Witness for the amended C2 at the concrete FloodWait environment. -/
theorem C2_amended_no_retry_witness :
    raisedCall envC2 = some (CallName.insert, Exn.floodWait 5) ∧
    ((processFile envC2).2 = false ∧
     attemptsOf (processFile envC2).1 CallName.insert = 1 ∧
     (∀ c2 : CallName, attemptsOf (processFile envC2).1 c2 ≤ 1) ∧
     (∃ pre : List Eff,
       (processFile envC2).1 = pre ++ [Eff.sleep 5, Eff.logNotify])) :=
  ⟨rfl, C2_amended_no_retry envC2 CallName.insert 5 rfl⟩

theorem checkJoined_not_mem_exnEffects (e : Exn) :
    Eff.checkJoined ∉ exnEffects e := by
  cases e <;> simp [exnEffects]

theorem checkJoined_not_mem_processFile (env : ProcEnv) :
    Eff.checkJoined ∉ (processFile env).1 := by
  obtain ⟨i, f, g, rp⟩ := env
  cases i <;> cases f <;> cases g <;> cases rp <;>
    simp [processFile, checkJoined_not_mem_exnEffects]

theorem checkJoined_not_mem_processItems (items : List BatchItem) :
    Eff.checkJoined ∉ (processItems items).1 := by
  induction items with
  | nil => simp [processItems]
  | cons it rest ih =>
    by_cases h : it.present && it.hasMedia <;>
      simp [processItems, h, checkJoined_not_mem_processFile, ih]

theorem checkJoined_not_mem_pmf (startId numFiles : Nat)
    (fetchRes : Except Unit (List BatchItem)) :
    Eff.checkJoined ∉ (process_multiple_files startId numFiles fetchRes).1 := by
  cases fetchRes with
  | error u => simp [process_multiple_files]
  | ok items => simp [process_multiple_files, checkJoined_not_mem_processItems]

/-- C4: both handlers evaluate the ingestion preconditions in the
fixed order authorized, then not banned, then (only when FORCE_SUB is
configured) joined, and short-circuit: each failed precondition
returns at once with exactly the checks made so far in the trace -- no
later precondition check, no registry insert, no handle resolution, no
link generation -- and a definite denial outcome rather than an
exception; when FORCE_SUB is off the join check is never evaluated. -/
theorem C4_precondition_order (envP : PrivateEnv) (envL : LinkEnv) :
    (envP.authorized = false →
      private_receive_handler envP
        = ([Eff.checkAuthorized], Outcome.deniedUnauthorized)) ∧
    (envP.authorized = true → envP.banned = true →
      private_receive_handler envP
        = ([Eff.checkAuthorized, Eff.checkBanned], Outcome.deniedBanned)) ∧
    (envP.authorized = true → envP.banned = false → envP.forceSub = true →
      envP.joined = false →
      private_receive_handler envP
        = ([Eff.checkAuthorized, Eff.checkBanned, Eff.userExistCheck,
            Eff.checkJoined], Outcome.deniedNotJoined)) ∧
    (envP.forceSub = false →
      Eff.checkJoined ∉ (private_receive_handler envP).1) ∧
    (envL.authorized = false →
      link_handler envL = ([Eff.checkAuthorized], Outcome.deniedUnauthorized)) ∧
    (envL.authorized = true → envL.banned = true →
      link_handler envL
        = ([Eff.checkAuthorized, Eff.checkBanned], Outcome.deniedBanned)) ∧
    (envL.authorized = true → envL.banned = false → envL.forceSub = true →
      envL.joined = false →
      link_handler envL
        = ([Eff.checkAuthorized, Eff.checkBanned, Eff.userExistCheck,
            Eff.checkJoined], Outcome.deniedNotJoined)) ∧
    (envL.forceSub = false → Eff.checkJoined ∉ (link_handler envL).1) := by
  refine ⟨?_, ?_, ?_, ?_, ?_, ?_, ?_, ?_⟩
  · intro h; simp [private_receive_handler, h]
  · intro h1 h2; simp [private_receive_handler, h1, h2]
  · intro h1 h2 h3 h4; simp [private_receive_handler, h1, h2, h3, h4]
  · intro h
    cases ha : envP.authorized <;> cases hb : envP.banned <;>
      simp [private_receive_handler, ha, hb, h, checkJoined_not_mem_processFile]
  · intro h; simp [link_handler, h]
  · intro h1 h2; simp [link_handler, h1, h2]
  · intro h1 h2 h3 h4; simp [link_handler, h1, h2, h3, h4]
  · intro h
    cases ha : envL.authorized <;> cases hb : envL.banned <;>
      cases hg : envL.isGroupChat <;>
        cases hadm : check_admin_privileges envL.adminFetch <;>
          rcases hr : envL.replyMsg with _ | ⟨mid, media⟩ <;>
            (try cases media) <;>
              rcases hcnt : envL.countArg with _ | _ | n <;>
                simp [link_handler, h, ha, hb, hg, hadm, hr, hcnt,
                  checkJoined_not_mem_processFile, checkJoined_not_mem_pmf]
    all_goals repeat' split
    all_goals
      simp [checkJoined_not_mem_processFile, checkJoined_not_mem_pmf]

/-- Successful ingestion environment used by concrete witnesses. -/
def procOk : ProcEnv := ⟨Except.ok 7, Except.ok (), Except.ok (), Except.ok ()⟩

/-- Private event from an unauthorized sender. -/
def envPUnauth : PrivateEnv := ⟨false, false, false, false, procOk⟩

/-- Private event from a banned sender. -/
def envPBanned : PrivateEnv := ⟨true, true, false, false, procOk⟩

/-- Private event from a sender who has not joined the forced channel. -/
def envPNotJoined : PrivateEnv := ⟨true, false, true, false, procOk⟩

/-- Link invocation from an unauthorized sender. -/
def envLUnauth : LinkEnv :=
  ⟨false, false, false, false, false, Except.ok ChatMemberStatus.administrator,
   some ⟨50, true⟩, CountArg.absent, procOk, Except.ok []⟩

/-- Link invocation from a banned sender. -/
def envLBanned : LinkEnv :=
  ⟨true, true, false, false, false, Except.ok ChatMemberStatus.administrator,
   some ⟨50, true⟩, CountArg.absent, procOk, Except.ok []⟩

/-- Link invocation from a sender who has not joined the forced channel. -/
def envLNotJoined : LinkEnv :=
  ⟨true, false, true, false, false, Except.ok ChatMemberStatus.administrator,
   some ⟨50, true⟩, CountArg.absent, procOk, Except.ok []⟩

/-- Link invocation in a group where the admin-role fetch fails. -/
def envLNotAdmin : LinkEnv :=
  ⟨true, false, true, true, true, Except.error (),
   some ⟨50, true⟩, CountArg.absent, procOk, Except.ok []⟩

/-- Link invocation that does not reply to any message. -/
def envLNoReply : LinkEnv :=
  ⟨true, false, true, true, true, Except.ok ChatMemberStatus.administrator,
   none, CountArg.absent, procOk, Except.ok []⟩

/-- Link invocation with the out-of-range count 26. -/
def envLBadCount : LinkEnv :=
  ⟨true, false, true, true, true, Except.ok ChatMemberStatus.administrator,
   some ⟨50, true⟩, CountArg.given 26, procOk, Except.ok []⟩

/-- Witness for C4 at concrete denial environments. -/
theorem C4_precondition_order_witness :
    private_receive_handler envPUnauth
      = ([Eff.checkAuthorized], Outcome.deniedUnauthorized) ∧
    private_receive_handler envPBanned
      = ([Eff.checkAuthorized, Eff.checkBanned], Outcome.deniedBanned) ∧
    private_receive_handler envPNotJoined
      = ([Eff.checkAuthorized, Eff.checkBanned, Eff.userExistCheck,
          Eff.checkJoined], Outcome.deniedNotJoined) ∧
    Eff.checkJoined ∉ (private_receive_handler envPUnauth).1 ∧
    link_handler envLUnauth
      = ([Eff.checkAuthorized], Outcome.deniedUnauthorized) ∧
    link_handler envLBanned
      = ([Eff.checkAuthorized, Eff.checkBanned], Outcome.deniedBanned) ∧
    link_handler envLNotJoined
      = ([Eff.checkAuthorized, Eff.checkBanned, Eff.userExistCheck,
          Eff.checkJoined], Outcome.deniedNotJoined) ∧
    Eff.checkJoined ∉ (link_handler envLUnauth).1 :=
  ⟨(C4_precondition_order envPUnauth envLUnauth).1 rfl,
   (C4_precondition_order envPBanned envLUnauth).2.1 rfl rfl,
   (C4_precondition_order envPNotJoined envLUnauth).2.2.1 rfl rfl rfl rfl,
   (C4_precondition_order envPUnauth envLUnauth).2.2.2.1 rfl,
   (C4_precondition_order envPUnauth envLUnauth).2.2.2.2.1 rfl,
   (C4_precondition_order envPUnauth envLBanned).2.2.2.2.2.1 rfl rfl,
   (C4_precondition_order envPUnauth envLNotJoined).2.2.2.2.2.2.1 rfl rfl rfl rfl,
   (C4_precondition_order envPUnauth envLUnauth).2.2.2.2.2.2.2 rfl⟩

/-- C7: the permission denials (unauthorized, banned, not joined) send
no reply at all to the requester, while the failed group-admin check
and the missing-reply-target check each deny with an explanatory
reply. -/
theorem C7_denials_silent (envP : PrivateEnv) (envL : LinkEnv) :
    (envP.authorized = false →
      (private_receive_handler envP).1.all (fun e => !isReplyEff e) = true) ∧
    (envP.banned = true →
      (private_receive_handler envP).1.all (fun e => !isReplyEff e) = true) ∧
    (envP.forceSub = true → envP.joined = false →
      (private_receive_handler envP).1.all (fun e => !isReplyEff e) = true) ∧
    (envL.authorized = false →
      (link_handler envL).1.all (fun e => !isReplyEff e) = true) ∧
    (envL.banned = true →
      (link_handler envL).1.all (fun e => !isReplyEff e) = true) ∧
    (envL.forceSub = true → envL.joined = false →
      (link_handler envL).1.all (fun e => !isReplyEff e) = true) ∧
    (envL.authorized = true → envL.banned = false →
      (envL.forceSub = true → envL.joined = true) →
      envL.isGroupChat = true → check_admin_privileges envL.adminFetch = false →
      (link_handler envL).2 = Outcome.deniedNotAdmin ∧
      Eff.replyAdminNeeded ∈ (link_handler envL).1) ∧
    (envL.authorized = true → envL.banned = false →
      (envL.forceSub = true → envL.joined = true) →
      (envL.isGroupChat = true → check_admin_privileges envL.adminFetch = true) →
      envL.replyMsg = none →
      (link_handler envL).2 = Outcome.noReplyTarget ∧
      Eff.replyNoReplyTarget ∈ (link_handler envL).1) := by
  refine ⟨?_, ?_, ?_, ?_, ?_, ?_, ?_, ?_⟩
  · intro h
    simp [private_receive_handler, h, isReplyEff]
  · intro h
    cases ha : envP.authorized <;>
      simp [private_receive_handler, ha, h, isReplyEff]
  · intro h1 h2
    cases ha : envP.authorized <;> cases hb : envP.banned <;>
      simp [private_receive_handler, ha, hb, h1, h2, isReplyEff]
  · intro h
    simp [link_handler, h, isReplyEff]
  · intro h
    cases ha : envL.authorized <;>
      simp [link_handler, ha, h, isReplyEff]
  · intro h1 h2
    cases ha : envL.authorized <;> cases hb : envL.banned <;>
      simp [link_handler, ha, hb, h1, h2, isReplyEff]
  · intro h1 h2 h3 h4 h5
    cases hf : envL.forceSub <;>
      simp [link_handler, h1, h2, hf, h3, h4, h5]
  · intro h1 h2 h3 h4 h5
    cases hf : envL.forceSub <;> cases hg : envL.isGroupChat <;>
      simp [link_handler, h1, h2, hf, hg, h5] <;>
        simp_all

/-- Witness for C7 at concrete denial environments. -/
theorem C7_denials_silent_witness :
    ((private_receive_handler envPUnauth).1.all (fun e => !isReplyEff e) = true) ∧
    ((link_handler envLNotJoined).1.all (fun e => !isReplyEff e) = true) ∧
    ((link_handler envLNotAdmin).2 = Outcome.deniedNotAdmin ∧
     Eff.replyAdminNeeded ∈ (link_handler envLNotAdmin).1) ∧
    ((link_handler envLNoReply).2 = Outcome.noReplyTarget ∧
     Eff.replyNoReplyTarget ∈ (link_handler envLNoReply).1) :=
  ⟨(C7_denials_silent envPUnauth envLNotJoined).1 rfl,
   (C7_denials_silent envPUnauth envLNotJoined).2.2.2.2.2.1 rfl rfl,
   (C7_denials_silent envPUnauth envLNotAdmin).2.2.2.2.2.2.1
     rfl rfl (fun _ => rfl) rfl rfl,
   (C7_denials_silent envPUnauth envLNoReply).2.2.2.2.2.2.2
     rfl rfl (fun _ => rfl) (fun _ => rfl) rfl⟩

/-- C10: for an authorized, non-banned sender, both handlers perform
the user-existence registration (is_user_exist) before the
force-subscription check, so a sender denied for not having joined the
required channel has already been registered when the denial occurs. -/
theorem C10_registration_before_join_check (envP : PrivateEnv) (envL : LinkEnv) :
    (envP.authorized = true → envP.banned = false →
      (private_receive_handler envP).1.take 3
        = [Eff.checkAuthorized, Eff.checkBanned, Eff.userExistCheck]) ∧
    (envP.authorized = true → envP.banned = false → envP.forceSub = true →
      envP.joined = false →
      (private_receive_handler envP).2 = Outcome.deniedNotJoined ∧
      (private_receive_handler envP).1
        = [Eff.checkAuthorized, Eff.checkBanned, Eff.userExistCheck,
           Eff.checkJoined]) ∧
    (envL.authorized = true → envL.banned = false →
      (link_handler envL).1.take 3
        = [Eff.checkAuthorized, Eff.checkBanned, Eff.userExistCheck]) ∧
    (envL.authorized = true → envL.banned = false → envL.forceSub = true →
      envL.joined = false →
      (link_handler envL).2 = Outcome.deniedNotJoined ∧
      (link_handler envL).1
        = [Eff.checkAuthorized, Eff.checkBanned, Eff.userExistCheck,
           Eff.checkJoined]) := by
  refine ⟨?_, ?_, ?_, ?_⟩
  · intro h1 h2
    cases hf : envP.forceSub <;> cases hj : envP.joined <;>
      simp [private_receive_handler, h1, h2, hf, hj]
  · intro h1 h2 h3 h4
    simp [private_receive_handler, h1, h2, h3, h4]
  · intro h1 h2
    cases hf : envL.forceSub <;> cases hj : envL.joined <;>
      cases hg : envL.isGroupChat <;>
        cases hadm : check_admin_privileges envL.adminFetch <;>
          rcases hr : envL.replyMsg with _ | ⟨mid, media⟩ <;>
            (try cases media) <;>
              rcases hcnt : envL.countArg with _ | _ | n <;>
                simp [link_handler, h1, h2, hf, hj, hg, hadm, hr, hcnt]
    all_goals repeat' split
    all_goals simp
  · intro h1 h2 h3 h4
    simp [link_handler, h1, h2, h3, h4]

/-- Witness for C10 at concrete not-joined environments. -/
theorem C10_registration_before_join_check_witness :
    ((private_receive_handler envPNotJoined).1.take 3
       = [Eff.checkAuthorized, Eff.checkBanned, Eff.userExistCheck]) ∧
    ((private_receive_handler envPNotJoined).2 = Outcome.deniedNotJoined ∧
     (private_receive_handler envPNotJoined).1
       = [Eff.checkAuthorized, Eff.checkBanned, Eff.userExistCheck,
          Eff.checkJoined]) ∧
    ((link_handler envLNotJoined).1.take 3
       = [Eff.checkAuthorized, Eff.checkBanned, Eff.userExistCheck]) ∧
    ((link_handler envLNotJoined).2 = Outcome.deniedNotJoined ∧
     (link_handler envLNotJoined).1
       = [Eff.checkAuthorized, Eff.checkBanned, Eff.userExistCheck,
          Eff.checkJoined]) :=
  ⟨(C10_registration_before_join_check envPNotJoined envLNotJoined).1 rfl rfl,
   (C10_registration_before_join_check envPNotJoined envLNotJoined).2.1
     rfl rfl rfl rfl,
   (C10_registration_before_join_check envPNotJoined envLNotJoined).2.2.1
     rfl rfl,
   (C10_registration_before_join_check envPNotJoined envLNotJoined).2.2.2
     rfl rfl rfl rfl⟩

/-- C1: a /link invocation carrying an explicit integer count outside
the inclusive range [1,25] never fetches messages, never inserts into
the registry, never resolves handles and never generates a link (the
count is not clamped into range); and when such an invocation passes
all earlier checks it is answered with the validation reply and the
validation-error outcome. -/
theorem C1_count_validation (env : LinkEnv) (n : Int)
    (hc : env.countArg = CountArg.given n) (hn : n < 1 ∨ 25 < n) :
    ((link_handler env).1.all (fun e => !isIngestEff e) = true) ∧
    (env.authorized = true → env.banned = false →
      (env.forceSub = true → env.joined = true) →
      (env.isGroupChat = true → check_admin_privileges env.adminFetch = true) →
      ∀ r : ReplyInfo, env.replyMsg = some r → r.hasMedia = true →
        (link_handler env).2 = Outcome.invalidCount ∧
        Eff.replyValidation ∈ (link_handler env).1) := by
  constructor
  · cases ha : env.authorized <;> cases hb : env.banned <;>
      cases hf : env.forceSub <;> cases hj : env.joined <;>
        cases hg : env.isGroupChat <;>
          cases hadm : check_admin_privileges env.adminFetch <;>
            rcases hr : env.replyMsg with _ | ⟨mid, media⟩ <;>
              (try cases media) <;>
                simp [link_handler, ha, hb, hf, hj, hg, hadm, hr, hc, hn,
                  isIngestEff]
  · intro h1 h2 h3 h4 r hr hm
    cases hf : env.forceSub <;> cases hg : env.isGroupChat <;>
      simp [link_handler, h1, h2, hf, hg, h3, h4, hr, hm, hc, hn]

/-- Witness for C1 at a /link invocation with count 26. -/
theorem C1_count_validation_witness :
    envLBadCount.countArg = CountArg.given 26 ∧
    ((26 : Int) < 1 ∨ 25 < (26 : Int)) ∧
    ((link_handler envLBadCount).1.all (fun e => !isIngestEff e) = true) ∧
    ((link_handler envLBadCount).2 = Outcome.invalidCount ∧
     Eff.replyValidation ∈ (link_handler envLBadCount).1) :=
  ⟨rfl, Or.inr (by decide),
   (C1_count_validation envLBadCount 26 rfl (Or.inr (by decide))).1,
   (C1_count_validation envLBadCount 26 rfl (Or.inr (by decide))).2
     rfl rfl (fun _ => rfl) (fun _ => rfl) ⟨50, true⟩ rfl rfl⟩

end FileStreamSpec
